import Mathlib

/-!
# Verified model of the ticket-resolution pipeline

A shallow embedding, in Lean, of the core of the `ai-jira-customer-support-agent`
repository: the investigation executor (`src/integrations/claude_executor.py`),
the pipeline orchestrator (`main.py`), the response generator
(`src/integrations/claude_log_processor.py`), the JIRA update step
(`src/core/ticket_processor.py`) and the audit store
(`src/database/ticket_tracker.py`).

Conventions used throughout:
* Python strings are modelled by `String`; byte output of the subprocess is
  modelled by its decoded string (the code decodes with `errors='ignore'`).
* Python `Optional` values are `Option`; Python truthiness of optional lists
  (`None` and `[]` are falsy) is `listTruthy`.
* Fallible calls (subprocess spawn, file IO, the language-model call) are
  `Except String` values supplied as parameters: `.error e` models the call
  raising an exception whose text is `e`.
* Wall-clock durations and timestamps are abstract `Nat` values; their
  numeric value is never computed by the modelled code, only compared.
-/

/-- Truthiness of a Python `Optional[list]` value: `None` and `[]` are falsy. -/
def listTruthy : Option (List String) → Bool
  | none => false
  | some l => !l.isEmpty

/-- Python `x or []` for an `Optional[list]` value `x`. -/
def listOrEmpty : Option (List String) → List String
  | none => []
  | some l => l

/-- Python `str.strip()`: remove whitespace from both ends of a string. -/
def pyStrip (s : String) : String :=
  ⟨((s.data.dropWhile Char.isWhitespace).reverse.dropWhile Char.isWhitespace).reverse⟩

/-! ## Investigation executor (`src/integrations/claude_executor.py`)

`ClaudeExecutionResult` is the dataclass returned by
`ClaudeExecutor.execute_claude_analysis`.  The `pr_urls` field has Python
default `None`, hence `Option (List String)`. -/

structure ClaudeExecutionResult where
  success : Bool
  log_file_path : String
  execution_time_seconds : Nat
  exit_code : Int
  error_message : Option String
  pr_urls : Option (List String)
deriving DecidableEq, Repr

/-- Model of `ClaudeExecutor._run_claude_command`.

`cmdOutcome` is the result of spawning the subprocess and collecting its
combined output: `.ok (returncode, stdout)` on a completed run, `.error e`
when spawn or IO raised with text `e` (the function catches the exception
itself).  Returns the `(exit_code, error_message)` pair of the Python code:
a run that exits `0` but whose decoded, trimmed output is shorter than 50
characters is turned into `(-1, "No meaningful output ...")`. -/
def run_claude_command (cmdOutcome : Except String (Int × String)) :
    Int × Option String :=
  match cmdOutcome with
  | .error e => (-1, some ("Failed to execute Claude command: " ++ e))
  | .ok (returncode, stdout) =>
    if stdout = "" ∨ (pyStrip stdout).length < 50 then
      (-1, some "No meaningful output from Claude execution - marking as failed")
    else
      (returncode, if returncode = 0 then none else some "Non-zero exit code")

/-- Content of the transcript log file after `_run_claude_command` ran: the
captured output on a completed run, and the `ERROR:` report (followed by the
original prompt) when spawning raised. -/
def claude_log_content (cmdOutcome : Except String (Int × String))
    (prompt : String) : String :=
  match cmdOutcome with
  | .ok (_, stdout) => stdout
  | .error e =>
    "ERROR: Failed to execute Claude command: " ++ e ++ "\n" ++
      "Original prompt:\n" ++ prompt ++ "\n"

/-! ### PR-reference extraction (`ClaudeExecutor._extract_pr_urls_from_logs`)

The Python code scans the transcript with four regular expressions
(`re.findall`, `re.IGNORECASE`) and deduplicates with `list(set(...))`.
The matchers below implement exactly those four patterns; `re.findall`
semantics (leftmost, non-overlapping, left-to-right) is `findallAux`. -/

/-- Case-insensitive character comparison (`re.IGNORECASE`). -/
def charCI (a b : Char) : Bool := a.toLower == b.toLower

/-- Match a literal pattern case-insensitively at the head of the input; on
success return the consumed characters (original case) and the rest. -/
def matchLitCI : List Char → List Char → Option (List Char × List Char)
  | [], cs => some ([], cs)
  | _ :: _, [] => none
  | p :: ps, c :: cs =>
    if charCI p c then
      match matchLitCI ps cs with
      | some (consumed, rest) => some (c :: consumed, rest)
      | none => none
    else none

/-- Match a greedy nonempty run of characters satisfying `p` (a `[...]+`
character class; such a class admits no backtracking, so maximal munch is
exact `re` behaviour here). -/
def matchPlus (p : Char → Bool) (cs : List Char) :
    Option (List Char × List Char) :=
  let t := cs.takeWhile p
  if t.isEmpty then none else some (t, cs.drop t.length)

/-- `https://github\.com/[^/]+/[^/]+/pull/\d+` with `re.IGNORECASE`; the
pattern has no group, so `re.findall` emits the whole match.  Digits are
modelled as ASCII digits. -/
def matchGithubPrUrl (cs : List Char) : Option (List Char × List Char) := do
  let (a, r) ← matchLitCI "https://github.com/".data cs
  let (s1, r) ← matchPlus (fun c => c ≠ '/') r
  let (sl1, r) ← matchLitCI "/".data r
  let (s2, r) ← matchPlus (fun c => c ≠ '/') r
  let (sl2, r) ← matchLitCI "/pull/".data r
  let (ds, r) ← matchPlus Char.isDigit r
  some (a ++ s1 ++ sl1 ++ s2 ++ sl2 ++ ds, r)

/-- `LIT(https://[^\s]+)` with `re.IGNORECASE`: a literal phrase followed by
a URL-shaped group; `re.findall` emits the parenthesised group. -/
def matchPrPhrase (lit : String) (cs : List Char) :
    Option (List Char × List Char) := do
  let (_, r) ← matchLitCI lit.data cs
  let (h, r') ← matchLitCI "https://".data r
  let (u, rest) ← matchPlus (fun c => !c.isWhitespace) r'
  some (h ++ u, rest)

/-- One `re.findall` pass: leftmost, non-overlapping matches, scanning left
to right.  `fuel` is the length of the scanned text; every step consumes at
least one character, so the fuel never runs out on the initial call. -/
def findallAux (tryMatch : List Char → Option (List Char × List Char)) :
    Nat → List Char → List (List Char)
  | 0, _ => []
  | _ + 1, [] => []
  | fuel + 1, c :: cs =>
    match tryMatch (c :: cs) with
    | some (m, rest) => m :: findallAux tryMatch fuel rest
    | none => findallAux tryMatch fuel cs

/-- `re.findall(pattern, content)` for one of the matchers above. -/
def findall (tryMatch : List Char → Option (List Char × List Char))
    (content : String) : List String :=
  (findallAux tryMatch content.data.length content.data).map (fun m => ⟨m⟩)

/-- The concatenated matches of the four patterns of
`_extract_pr_urls_from_logs`, in the order the code extends `pr_urls`. -/
def prRawMatches (content : String) : List String :=
  findall matchGithubPrUrl content ++
  findall (matchPrPhrase "Pull request: ") content ++
  findall (matchPrPhrase "PR created: ") content ++
  findall (matchPrPhrase "Created pull request: ") content

/-- Model of `ClaudeExecutor._extract_pr_urls_from_logs`.  The Python code
deduplicates with `list(set(pr_urls))`, which yields a duplicate-free list
in unspecified order; the model picks first-occurrence order
(`List.dedup`).  Only set-level facts are claimed about the result. -/
def extract_pr_urls_from_logs (content : String) : List String :=
  (prRawMatches content).dedup

/-- Model of `ClaudeExecutor.execute_claude_analysis`.

`outerErr = some e` models an exception raised in the body outside
`_run_claude_command` (e.g. while building the log path); the code catches
it and returns a failed result with `pr_urls = []`.  Otherwise the result is
assembled from `_run_claude_command` and the PR URLs extracted from the
transcript just written. -/
def execute_claude_analysis (outerErr : Option String)
    (cmdOutcome : Except String (Int × String)) (prompt : String)
    (executionTime : Nat) (logFilePath : String) : ClaudeExecutionResult :=
  match outerErr with
  | some e =>
    { success := false
      log_file_path := logFilePath
      execution_time_seconds := executionTime
      exit_code := -1
      error_message := some e
      pr_urls := some [] }
  | none =>
    let result := run_claude_command cmdOutcome
    let prUrls := extract_pr_urls_from_logs (claude_log_content cmdOutcome prompt)
    { success := decide (result.1 = 0)
      log_file_path := logFilePath
      execution_time_seconds := executionTime
      exit_code := result.1
      error_message := if result.1 ≠ 0 then result.2 else none
      pr_urls := some prUrls }

/-! ## Theorems for claims C1 and C7 -/

/-- **C1.** For every subprocess run of the investigation executor, the
returned result has `success = true` iff the subprocess exit code is zero
and the decoded, trimmed output reaches the minimum meaningful-content
threshold (50 characters); in particular a run that exits 0 with 10 bytes
of output has `success = false` and the "no meaningful output" error
message. -/
theorem claude_success_iff_exit_zero_and_meaningful_output :
    (∀ (returncode : Int) (stdout prompt path : String) (t : Nat),
       (execute_claude_analysis none (.ok (returncode, stdout)) prompt t path).success = true ↔
         returncode = 0 ∧ 50 ≤ (pyStrip stdout).length) ∧
    (∀ (stdout prompt path : String) (t : Nat), (pyStrip stdout).length < 50 →
       (execute_claude_analysis none (.ok (0, stdout)) prompt t path).success = false ∧
       (execute_claude_analysis none (.ok (0, stdout)) prompt t path).error_message =
         some "No meaningful output from Claude execution - marking as failed") ∧
    ("abcdefghij".length = 10 ∧
       (execute_claude_analysis none (.ok (0, "abcdefghij")) "p" 1 "log").success = false ∧
       (execute_claude_analysis none (.ok (0, "abcdefghij")) "p" 1 "log").error_message =
         some "No meaningful output from Claude execution - marking as failed") := by
  refine ⟨?_, ?_, by decide, by decide, by decide⟩
  · intro returncode stdout prompt path t
    simp only [execute_claude_analysis, run_claude_command]
    split
    · rename_i h
      simp only [decide_eq_true_eq]
      constructor
      · intro hfalse; exact absurd hfalse (by decide)
      · rintro ⟨h0, h50⟩
        rcases h with he | hlt
        · subst he; exact absurd h50 (by decide)
        · omega
    · rename_i h
      push_neg at h
      simp only [decide_eq_true_eq]
      exact ⟨fun h0 => ⟨h0, h.2⟩, fun ⟨h0, _⟩ => h0⟩
  · intro stdout prompt path t hshort
    simp only [execute_claude_analysis, run_claude_command]
    rw [if_pos (Or.inr hshort)]
    exact ⟨by decide, by simp⟩

/-- Witness for C1: a concrete 10-character output on an exit-0 run is
rejected as "no meaningful output". -/
theorem claude_success_iff_exit_zero_and_meaningful_output_witness :
    (pyStrip "abcdefghij").length < 50 ∧
      (execute_claude_analysis none (.ok (0, "abcdefghij")) "p" 1 "log").success = false :=
  ⟨by decide,
    (claude_success_iff_exit_zero_and_meaningful_output.2.1 "abcdefghij" "p" "log" 1
      (by decide)).1⟩

/-- **C7.** PR-reference extraction returns a duplicate-free list; it is
idempotent (deduplicating the result again changes nothing) and
order-independent (transcripts whose raw pattern matches are permutations
of one another yield the same set); and extraction is performed on the
captured output regardless of exit code, i.e. regardless of overall
success or failure. -/
theorem pr_extraction_nodup_idempotent_order_independent :
    (∀ content : String, (extract_pr_urls_from_logs content).Nodup) ∧
    (∀ content : String,
       (extract_pr_urls_from_logs content).dedup = extract_pr_urls_from_logs content) ∧
    (∀ c₁ c₂ : String, List.Perm (prRawMatches c₁) (prRawMatches c₂) →
       (extract_pr_urls_from_logs c₁).toFinset = (extract_pr_urls_from_logs c₂).toFinset) ∧
    (∀ (returncode : Int) (stdout prompt path : String) (t : Nat),
       (execute_claude_analysis none (.ok (returncode, stdout)) prompt t path).pr_urls =
         some (extract_pr_urls_from_logs stdout)) := by
  refine ⟨fun c => List.nodup_dedup _, fun c => List.dedup_idem, ?_, ?_⟩
  · intro c₁ c₂ h
    exact List.toFinset_eq_of_perm _ _ h.dedup
  · intro returncode stdout prompt path t
    rfl

/-- Witness for C7: two concrete transcripts whose raw matches are
permutations of each other extract the same set of PR references. -/
theorem pr_extraction_nodup_idempotent_order_independent_witness :
    List.Perm (prRawMatches "PR created: https://a/1 Pull request: https://b/2")
        (prRawMatches "see https://b/2 Pull request: https://b/2 PR created: https://a/1") ∧
      (extract_pr_urls_from_logs "PR created: https://a/1 Pull request: https://b/2").toFinset =
        (extract_pr_urls_from_logs
          "see https://b/2 Pull request: https://b/2 PR created: https://a/1").toFinset := by
  constructor
  · decide
  · exact pr_extraction_nodup_idempotent_order_independent.2.2.1 _ _ (by decide)

/-! ## Pipeline orchestrator (`main.py`, `process_ticket`)

`process_ticket` drives fetch → analyze → execute → update → track.  Its
collaborator `TicketProcessor` (src/core/ticket_processor.py) is modelled
by the set of method names actually defined on the class: Python resolves
`ticket_processor.add_comment_to_ticket` by attribute lookup at call time,
raising `AttributeError` when the name is not defined. -/

/-- The method names defined on class `TicketProcessor`
(src/core/ticket_processor.py). -/
def ticketProcessorMethods : List String :=
  ["__init__", "fetch_ticket", "update_ticket_with_solution",
   "update_ticket_with_findings", "update_ticket_with_claude_response",
   "_parse_jira_datetime", "_extract_custom_fields", "_transition_ticket"]

/-- Python attribute lookup on a `TicketProcessor` instance. -/
def ticketProcessorHasAttr (name : String) : Bool :=
  ticketProcessorMethods.contains name

/-- The `AttributeError` message Python raises for a missing attribute. -/
def attributeError (name : String) : String :=
  "'TicketProcessor' object has no attribute '" ++ name ++ "'"

/-- Observable side effects of one `process_ticket` run: writes against the
JIRA ticket tracker and rows recorded in the audit store.  The `audit`
fields mirror the arguments `main.py` passes to
`TicketTracker.log_ticket_processing` (unpassed arguments keep their Python
defaults: `error_message=None`, `jira_comment_added=False`,
`labels_added=None`). -/
inductive PipelineEvent where
  | jiraComment (ticketId message : String)
  | jiraLabels (ticketId : String) (labels : List String)
  | jiraTransition (ticketId target : String)
  | audit (ticketId user : String) (success : Bool) (errorMessage : Option String)
      (prUrls : Option (List String)) (deepseekAnalysis : Option String)
      (jiraCommentAdded : Bool) (labelsAdded : Option (List String))
deriving DecidableEq, Repr

/-- `true` exactly on the ticket-tracker (JIRA) writes. -/
def PipelineEvent.isJiraWrite : PipelineEvent → Bool
  | .jiraComment .. => true
  | .jiraLabels .. => true
  | .jiraTransition .. => true
  | .audit .. => false

/-- Environment of one `process_ticket` run: the outcomes of the external
calls the run makes, in program order. -/
structure PipelineEnv where
  /-- `ticket_processor.fetch_ticket`: `.error e` models a raised exception. -/
  fetchOutcome : Except String Unit
  /-- `deepseek_client.analyze_ticket`; the payload is `str(issue_analysis)`. -/
  analysisOutcome : Except String String
  /-- `claude_executor.execute_claude_analysis` (never raises). -/
  claudeResult : ClaudeExecutionResult
  /-- reading `claude_result.log_file_path` back in `main.py`. -/
  logRead : Except String String

/-- The JIRA message `main.py` builds from the transcript (f-string with
its literal indentation). -/
def jiraMessageOf (claudeAnalysis : String) : String :=
  "\n            ** This is an AI Generated Message **\n            " ++
    claudeAnalysis ++ "\n            "

/-- Model of `process_ticket` (main.py).  Returns the boolean result and
the list of observable events in order.  The blanket `except` handler in
the source catches every staged exception, records a failure audit row when
a tracker is supplied, and returns `False`. -/
def process_ticket (ticketId user : String) (hasTracker : Bool)
    (env : PipelineEnv) : Bool × List PipelineEvent :=
  let failAudit : String → List PipelineEvent := fun e =>
    if hasTracker then
      [.audit ticketId user false (some e) none none false none]
    else []
  match env.fetchOutcome with
  | .error e => (false, failAudit e)
  | .ok () =>
    match env.analysisOutcome with
    | .error e => (false, failAudit e)
    | .ok analysisStr =>
      let cr := env.claudeResult
      if cr.success then
        match env.logRead with
        | .error e => (false, failAudit e)
        | .ok claudeAnalysis =>
          if ticketProcessorHasAttr "add_comment_to_ticket" then
            let commentEvent :=
              PipelineEvent.jiraComment ticketId (jiraMessageOf claudeAnalysis)
            if ticketProcessorHasAttr "add_labels_to_ticket" then
              let labelsToAdd :=
                "ai-analyzed" :: (if listTruthy cr.pr_urls then ["pr-created"] else [])
              let labelsEvent := PipelineEvent.jiraLabels ticketId labelsToAdd
              let auditEvents :=
                if hasTracker then
                  [PipelineEvent.audit ticketId user true none cr.pr_urls
                    (some analysisStr) true (some labelsToAdd)]
                else []
              (true, commentEvent :: labelsEvent :: auditEvents)
            else
              (false, commentEvent :: failAudit (attributeError "add_labels_to_ticket"))
          else
            (false, failAudit (attributeError "add_comment_to_ticket"))
      else
        (false,
          if hasTracker then
            [.audit ticketId user false cr.error_message none (some analysisStr)
              false none]
          else [])

/-! ## Theorems for claims C2 and C3 -/

/-- **C2.** The JIRA-update step of `process_ticket` calls
`add_comment_to_ticket` and `add_labels_to_ticket`, neither of which is
defined on `TicketProcessor`; on every run that reaches the success branch
the attribute lookup raises, the blanket handler catches it, a failure
audit record is written when a tracker is supplied, and the run returns
`False` — hence `process_ticket` returns `False` on every input. -/
theorem process_ticket_success_branch_attribute_error_always_false :
    (ticketProcessorHasAttr "add_comment_to_ticket" = false ∧
     ticketProcessorHasAttr "add_labels_to_ticket" = false) ∧
    (∀ (ticketId user : String) (hasTracker : Bool)
       (analysisStr claudeAnalysis : String) (cr : ClaudeExecutionResult),
       cr.success = true →
       (process_ticket ticketId user hasTracker
           { fetchOutcome := .ok (), analysisOutcome := .ok analysisStr,
             claudeResult := cr, logRead := .ok claudeAnalysis }).1 = false ∧
       (∀ ev ∈ (process_ticket ticketId user hasTracker
           { fetchOutcome := .ok (), analysisOutcome := .ok analysisStr,
             claudeResult := cr, logRead := .ok claudeAnalysis }).2,
          ev.isJiraWrite = false) ∧
       (hasTracker = true →
         (process_ticket ticketId user hasTracker
             { fetchOutcome := .ok (), analysisOutcome := .ok analysisStr,
               claudeResult := cr, logRead := .ok claudeAnalysis }).2 =
           [.audit ticketId user false
              (some (attributeError "add_comment_to_ticket")) none none false none])) ∧
    (∀ (ticketId user : String) (hasTracker : Bool) (env : PipelineEnv),
       (process_ticket ticketId user hasTracker env).1 = false) := by
  have hattr : ticketProcessorHasAttr "add_comment_to_ticket" = false := by decide
  refine ⟨⟨by decide, by decide⟩, ?_, ?_⟩
  · intro tid user ht astr ca cr hs
    refine ⟨?_, ?_, ?_⟩
    · simp [process_ticket, hs, hattr]
    · intro ev hev
      simp only [process_ticket, hs, hattr] at hev
      simp only [if_true, Bool.false_eq_true, if_false] at hev
      rcases ht with _ | _
      · simp at hev
      · simp at hev
        subst hev
        rfl
    · intro hht
      subst hht
      simp [process_ticket, hs, hattr]
  · intro tid user ht env
    obtain ⟨f, a, cr, lr⟩ := env
    rcases f with e | u
    · rfl
    · rcases a with e | s
      · rfl
      · by_cases hs : cr.success
        · rcases lr with e | c
          · simp [process_ticket, hs]
          · simp [process_ticket, hs, hattr]
        · simp [process_ticket, hs]

/-- Witness for C2: a concrete successful investigation still yields
`False`, with only the `AttributeError` failure audit row. -/
theorem process_ticket_success_branch_attribute_error_always_false_witness :
    ({ success := true, log_file_path := "log", execution_time_seconds := 1,
       exit_code := 0, error_message := none,
       pr_urls := some [] } : ClaudeExecutionResult).success = true ∧
    (process_ticket "TICKET-1" "default" true
        { fetchOutcome := .ok (), analysisOutcome := .ok "analysis",
          claudeResult :=
            { success := true, log_file_path := "log", execution_time_seconds := 1,
              exit_code := 0, error_message := none, pr_urls := some [] },
          logRead := .ok "transcript" }).2 =
      [.audit "TICKET-1" "default" false
         (some (attributeError "add_comment_to_ticket")) none none false none] :=
  ⟨rfl,
    (process_ticket_success_branch_attribute_error_always_false.2.1 "TICKET-1"
        "default" true "analysis" "transcript"
        { success := true, log_file_path := "log", execution_time_seconds := 1,
          exit_code := 0, error_message := none, pr_urls := some [] } rfl).2.2 rfl⟩

/-- **C3.** A run whose investigation result has `success = false` performs
no ticket-tracker write (no comment, no labels, no transition), returns
`false`, and the audit record written for the run (when a tracker is
supplied) carries `success = false` and the investigation's own error
text. -/
theorem failed_investigation_never_updates_tracker :
    ∀ (ticketId user : String) (hasTracker : Bool) (analysisStr : String)
      (cr : ClaudeExecutionResult) (logRead : Except String String),
      cr.success = false →
      (process_ticket ticketId user hasTracker
          { fetchOutcome := .ok (), analysisOutcome := .ok analysisStr,
            claudeResult := cr, logRead := logRead }).1 = false ∧
      (∀ ev ∈ (process_ticket ticketId user hasTracker
          { fetchOutcome := .ok (), analysisOutcome := .ok analysisStr,
            claudeResult := cr, logRead := logRead }).2,
         ev.isJiraWrite = false) ∧
      (hasTracker = true →
        (process_ticket ticketId user hasTracker
            { fetchOutcome := .ok (), analysisOutcome := .ok analysisStr,
              claudeResult := cr, logRead := logRead }).2 =
          [.audit ticketId user false cr.error_message none (some analysisStr)
             false none]) := by
  intro tid user ht astr cr lr hs
  refine ⟨by simp [process_ticket, hs], ?_, ?_⟩
  · intro ev hev
    simp only [process_ticket, hs, Bool.false_eq_true, if_false] at hev
    rcases ht with _ | _
    · simp at hev
    · simp at hev
      subst hev
      rfl
  · intro hht
    subst hht
    simp [process_ticket, hs]

/-- Witness for C3: a concrete failed investigation produces the single
failure audit row carrying the investigation's error message. -/
theorem failed_investigation_never_updates_tracker_witness :
    ({ success := false, log_file_path := "log", execution_time_seconds := 1,
       exit_code := -1, error_message := some "Non-zero exit code",
       pr_urls := some [] } : ClaudeExecutionResult).success = false ∧
    (process_ticket "TICKET-2" "default" true
        { fetchOutcome := .ok (), analysisOutcome := .ok "analysis",
          claudeResult :=
            { success := false, log_file_path := "log", execution_time_seconds := 1,
              exit_code := -1, error_message := some "Non-zero exit code",
              pr_urls := some [] },
          logRead := .ok "irrelevant" }).2 =
      [.audit "TICKET-2" "default" false (some "Non-zero exit code") none
         (some "analysis") false none] :=
  ⟨rfl,
    (failed_investigation_never_updates_tracker "TICKET-2" "default" true "analysis"
        { success := false, log_file_path := "log", execution_time_seconds := 1,
          exit_code := -1, error_message := some "Non-zero exit code",
          pr_urls := some [] } (.ok "irrelevant") rfl).2.2 rfl⟩

/-! ## Ticket data and analysis records

`TicketData` and `ConversationEntry` mirror the dataclasses of
`src/core/ticket_processor.py`; timestamps are abstract `Nat` instants
(Python compares `datetime` values by a total order).  The `custom_fields`
dict is not consulted by any modelled function and is omitted.
`IssueAnalysis` mirrors the dataclass of
`src/integrations/deepseek_client.py`; its `technical_details` and
`customer_info` dicts are modelled by records of the keys the code reads
(`dict.get` of an absent key and an empty value are both falsy in every
use site, so absent keys are modelled by empty values).  The
`confidence_score` float and `issue_timeframe` dict are not consulted by
any modelled function and are omitted. -/

structure ConversationEntry where
  author : String
  timestamp : Nat
  content : String
  type : String
deriving DecidableEq, Repr

structure TicketData where
  ticket_id : String
  title : String
  description : String
  priority : String
  status : String
  created_date : Nat
  updated_date : Nat
  reporter : String
  assignee : Option String
  conversation : List ConversationEntry
  labels : List String
  components : List String
deriving DecidableEq, Repr

structure TechnicalDetails where
  error_messages : List String
  affected_features : List String
  user_environment : String
  reproduction_steps : List String
deriving DecidableEq, Repr

structure CustomerInfo where
  primary_email : String
  all_emails : List String
  alpaca_id : String
  bank_relationship_code : String
  confidence_level : String
deriving DecidableEq, Repr

structure IssueAnalysis where
  ticket_id : String
  issue_summary : String
  issue_category : String
  severity : String
  technical_details : TechnicalDetails
  affected_components : List String
  user_actions : List String
  error_patterns : List String
  customer_info : CustomerInfo
deriving DecidableEq, Repr

/-! ## Response generator (`src/integrations/claude_log_processor.py`) -/

/-- Python `str.lower()`. -/
def pyLower (s : String) : String := ⟨s.data.map Char.toLower⟩

/-- Python `str.startswith(p)`: prefix test. -/
def pyStartsWith (s p : String) : Bool := p.data.isPrefixOf s.data

/-- The lines accumulated by `for i, pr_url in enumerate(pr_urls, i0):
section += f"{i}. {pr_url}\n"`. -/
def numberedPrLinesFrom (i : Nat) : List String → String
  | [] => ""
  | u :: us => toString i ++ ". " ++ u ++ "\n" ++ numberedPrLinesFrom (i + 1) us

/-- The numbered PR list built by `for i, pr_url in enumerate(pr_urls, 1):
section += f"{i}. {pr_url}\n"`. -/
def numberedPrLines (prUrls : List String) : String :=
  numberedPrLinesFrom 1 prUrls

/-- Model of `ClaudeLogProcessor._format_final_message`.  The
`claude_logs` parameter of the source only feeds commented-out code and is
dropped.  `pr_urls` may be `None` (`if pr_urls:` truthiness). -/
def format_final_message (baseMessage : String) (prUrls : Option (List String)) :
    String :=
  let base :=
    if pyStartsWith baseMessage "AI Generated Message:" then baseMessage
    else "AI Generated Message:\n\n" ++ baseMessage
  if listTruthy prUrls then
    base ++ ("\n\n**Pull Requests Created:**\n" ++ numberedPrLines (listOrEmpty prUrls))
  else base

/-- Model of `ClaudeLogProcessor._generate_fallback_response`: the
deterministic response synthesized from the already-available analysis
fields when the primary language-model path failed. -/
def generate_fallback_response (claudeResult : ClaudeExecutionResult)
    (ticketData : Option TicketData) (issueAnalysis : Option IssueAnalysis) :
    String :=
  let base := "AI Generated Message:\n\n"
  if claudeResult.success then
    let base :=
      match issueAnalysis with
      | some ia =>
        let b := base ++ "I have analyzed your " ++ pyLower ia.issue_category ++
          " issue regarding " ++
          (match ticketData with
           | some td => td.title
           | none => "your request") ++ ".\n\n"
        let b := b ++ "**Issue Summary:** " ++ ia.issue_summary ++ "\n\n"
        let b :=
          if ia.technical_details.error_messages ≠ [] then
            b ++ "**Error Details:** " ++
              String.intercalate ", " (ia.technical_details.error_messages.take 2) ++
              "\n\n"
          else b
        let b :=
          if ia.technical_details.affected_features ≠ [] then
            b ++ "**Affected Areas:** " ++
              String.intercalate ", " ia.technical_details.affected_features ++ "\n\n"
          else b
        let b :=
          if ia.customer_info.primary_email ≠ "" then
            b ++ "**Account:** " ++ ia.customer_info.primary_email ++ "\n\n"
          else b
        let b :=
          if ia.severity = "high" ∨ ia.severity = "critical" then
            b ++ "**Priority:** This issue has been marked as high priority and requires immediate attention.\n\n"
          else b
        let b := b ++ "I have completed the initial analysis and investigation. "
        if listTruthy claudeResult.pr_urls then
          b ++ "Code fixes have been implemented and pull requests have been created.\n\n"
        else
          b ++ "Based on my analysis, this issue may require manual review or additional investigation.\n\n"
      | none => base ++ "I have completed the analysis of your support request.\n\n"
    let base :=
      if listTruthy claudeResult.pr_urls then
        base ++ ("**Pull Requests Created:**\n" ++
          numberedPrLines (listOrEmpty claudeResult.pr_urls) ++ "\n")
      else base
    base ++ "A customer support representative will follow up with additional details if needed."
  else
    base ++ "I was unable to complete the automated analysis of your ticket. A human agent will review this manually and provide assistance. Thank you for your patience."

/-- The schema of the primary language-model answer
(`JiraResponsePydantic`). -/
structure JiraResponsePydantic where
  response_message : String
  resolution_type : String
  confidence_level : String
  next_steps : List String
  technical_summary : String
deriving DecidableEq, Repr

/-- The `JiraResponse` dataclass returned by
`ClaudeLogProcessor.generate_jira_response`. -/
structure JiraResponse where
  message : String
  resolution_type : String
  confidence_level : String
  next_steps : List String
  technical_summary : String
  pr_urls : List String
deriving DecidableEq, Repr

/-- Model of `ClaudeLogProcessor.generate_jira_response`.

`primary` is the outcome of `_call_deepseek_for_response` (model call plus
JSON/schema parse): `.error e` models any exception in the primary path.
`_read_claude_logs` is called in the source but catches its own errors and
its result only feeds the formatter's ignored `claude_logs` parameter, so
it is not modelled.  When the primary path raised and the investigation
had succeeded, the deterministic fallback is returned with resolution type
`investigated` and confidence `medium`; for failed investigations the
exception is re-raised. -/
def generate_jira_response (primary : Except String JiraResponsePydantic)
    (claudeResult : ClaudeExecutionResult) (ticketData : Option TicketData)
    (issueAnalysis : Option IssueAnalysis) : Except String JiraResponse :=
  match primary with
  | .ok p =>
    .ok { message := format_final_message p.response_message claudeResult.pr_urls
          resolution_type := p.resolution_type
          confidence_level := p.confidence_level
          next_steps := p.next_steps
          technical_summary := p.technical_summary
          pr_urls := listOrEmpty claudeResult.pr_urls }
  | .error e =>
    if claudeResult.success then
      let fallbackMessage := generate_fallback_response claudeResult ticketData issueAnalysis
      .ok { message := format_final_message fallbackMessage claudeResult.pr_urls
            resolution_type := "investigated"
            confidence_level := "medium"
            next_steps := ["Follow up with customer if needed"]
            technical_summary := "Analysis completed but response processing failed: " ++ e
            pr_urls := listOrEmpty claudeResult.pr_urls }
    else
      .error ("Claude execution failed, no JIRA update needed: " ++ e)

/-! ## Counting occurrences, and sample values for concrete evaluation -/

/-- Number of non-overlapping occurrences of `pat` in a character list,
scanning left to right; `fuel` is the length of the scanned text. -/
def countOccAux (pat : List Char) : Nat → List Char → Nat
  | 0, _ => 0
  | _ + 1, [] => 0
  | fuel + 1, c :: cs =>
    if pat.isPrefixOf (c :: cs) then
      1 + countOccAux pat fuel (List.drop (pat.length - 1) cs)
    else countOccAux pat fuel cs

/-- Number of non-overlapping occurrences of `pat` in `s`. -/
def countOcc (s pat : String) : Nat := countOccAux pat.data s.data.length s.data

/-- A successful investigation that discovered one pull request. -/
def sampleClaudeResult : ClaudeExecutionResult :=
  { success := true, log_file_path := "log", execution_time_seconds := 1,
    exit_code := 0, error_message := none, pr_urls := some ["https://x/pr/1"] }

def sampleTicket : TicketData :=
  { ticket_id := "T-9", title := "Login broken", description := "d",
    priority := "High", status := "Open", created_date := 0, updated_date := 0,
    reporter := "rep", assignee := none, conversation := [], labels := [],
    components := [] }

def sampleDetails : TechnicalDetails :=
  { error_messages := [], affected_features := [],
    user_environment := "", reproduction_steps := [] }

def sampleCustomer : CustomerInfo :=
  { primary_email := "", all_emails := [], alpaca_id := "",
    bank_relationship_code := "", confidence_level := "low" }

def sampleAnalysis : IssueAnalysis :=
  { ticket_id := "T-9", issue_summary := "Login fails", issue_category := "bug",
    severity := "low", technical_details := sampleDetails,
    affected_components := [], user_actions := [], error_patterns := [],
    customer_info := sampleCustomer }

/-- A well-formed primary language-model answer without an embedded PR
section of its own. -/
def samplePrimary : JiraResponsePydantic :=
  { response_message := "Investigated the issue.", resolution_type := "investigated",
    confidence_level := "medium", next_steps := [], technical_summary := "" }

/-- Occurrences of the PR-section header in the message of a generated
response (`0` for the error outcome). -/
def prSectionCount : Except String JiraResponse → Nat
  | .ok resp => countOcc resp.message "**Pull Requests Created:**"
  | .error _ => 0

/-! ## Theorems for claims C4, C6 and C10 -/

/-- A string that passes Python's `startswith(p)` decomposes as `p ++ r`. -/
theorem pyStartsWith_exists {s p : String} (h : pyStartsWith s p = true) :
    ∃ r : String, s = p ++ r := by
  unfold pyStartsWith at h
  rw [ List.isPrefixOf_iff_prefix] at h
  obtain ⟨t, ht⟩ := h
  refine ⟨⟨t⟩, String.ext ?_⟩
  simpa using ht.symm

/-- Closed form of `_format_final_message` on a present URL list. -/
theorem format_final_message_eq (base : String) (urls : List String) :
    format_final_message base (some urls) =
      (if pyStartsWith base "AI Generated Message:" then base
       else "AI Generated Message:\n\n" ++ base) ++
      (if urls = [] then ""
       else "\n\n**Pull Requests Created:**\n" ++ numberedPrLines urls) := by
  unfold format_final_message
  by_cases hne : urls = []
  · subst hne
    simp [listTruthy]
  · have hl : listTruthy (some urls) = true := by
      simp [listTruthy, List.isEmpty_iff, hne]
    rw [if_pos hl, if_neg hne]
    rfl

/-- Closed form of `_format_final_message` when the URL argument is truthy. -/
theorem format_final_message_truthy (base : String) (o : Option (List String))
    (h : listTruthy o = true) :
    format_final_message base o =
      (if pyStartsWith base "AI Generated Message:" then base
       else "AI Generated Message:\n\n" ++ base) ++
      ("\n\n**Pull Requests Created:**\n" ++ numberedPrLines (listOrEmpty o)) := by
  unfold format_final_message
  rw [if_pos h]

/-- On a successful run with truthy PR URLs, the fallback body embeds its
own copy of the numbered PR block followed by the closing sentence. -/
theorem generate_fallback_response_embeds_pr_block
    (cr : ClaudeExecutionResult) (td : Option TicketData) (ia : Option IssueAnalysis)
    (hs : cr.success = true) (hl : listTruthy cr.pr_urls = true) :
    ∃ p : String, generate_fallback_response cr td ia =
      p ++ ("**Pull Requests Created:**\n" ++ numberedPrLines (listOrEmpty cr.pr_urls) ++
        "\n" ++
        "A customer support representative will follow up with additional details if needed.") := by
  unfold generate_fallback_response
  rw [hs]
  simp only [if_true, hl]
  exact ⟨_, String.append_assoc _ _ _⟩

/-- **C4.** Whenever the investigation succeeded, the response generator
returns a response even though the primary language-model path raised, and
the fallback carries resolution type exactly `"investigated"`, confidence
exactly `"medium"`, and the investigation's own PR list (empty when
none). -/
theorem fallback_response_always_investigated_medium :
    ∀ (e : String) (cr : ClaudeExecutionResult) (td : Option TicketData)
      (ia : Option IssueAnalysis), cr.success = true →
      ∃ resp, generate_jira_response (.error e) cr td ia = .ok resp ∧
        resp.resolution_type = "investigated" ∧
        resp.confidence_level = "medium" ∧
        resp.pr_urls = listOrEmpty cr.pr_urls ∧
        (cr.pr_urls = none → resp.pr_urls = []) := by
  intro e cr td ia hs
  simp only [generate_jira_response, hs, if_true]
  refine ⟨_, rfl, rfl, rfl, rfl, ?_⟩
  intro h
  simp [h, listOrEmpty]

/-- Witness for C4: a schema-validation failure on a concrete successful
investigation still yields the `investigated`/`medium` fallback carrying
the discovered PR list. -/
theorem fallback_response_always_investigated_medium_witness :
    ∃ resp,
      generate_jira_response (.error "schema validation failed") sampleClaudeResult
          (some sampleTicket) (some sampleAnalysis) = .ok resp ∧
        resp.resolution_type = "investigated" ∧
        resp.confidence_level = "medium" ∧
        resp.pr_urls = listOrEmpty sampleClaudeResult.pr_urls ∧
        (sampleClaudeResult.pr_urls = none → resp.pr_urls = []) :=
  fallback_response_always_investigated_medium "schema validation failed"
    sampleClaudeResult (some sampleTicket) (some sampleAnalysis) rfl

/-- **C6.** Every formatted final message begins with the fixed
`"AI Generated Message:"` marker, contains the base message, and — when the
URL list is non-empty — ends with the numbered PR list enumerating the URLs
in input order; a two-element list yields a two-item numbered list in input
order. -/
theorem format_final_message_marker_contains_numbered :
    (∀ (base : String) (urls : List String),
       (∃ r : String,
          format_final_message base (some urls) = "AI Generated Message:" ++ r) ∧
       (∃ p q : String, format_final_message base (some urls) = p ++ base ++ q) ∧
       (urls ≠ [] → ∃ p : String,
          format_final_message base (some urls) =
            p ++ ("\n\n**Pull Requests Created:**\n" ++ numberedPrLines urls))) ∧
    (∀ u₁ u₂ : String,
       numberedPrLines [u₁, u₂] = "1. " ++ u₁ ++ "\n" ++ ("2. " ++ u₂ ++ "\n")) := by
  constructor
  · intro base urls
    have hmarker : ("AI Generated Message:\n\n" : String) =
        "AI Generated Message:" ++ "\n\n" := by decide
    have hchar := format_final_message_eq base urls
    by_cases hsw : pyStartsWith base "AI Generated Message:" = true
    · obtain ⟨r, hr⟩ := pyStartsWith_exists hsw
      rw [if_pos hsw] at hchar
      refine ⟨⟨r ++ _, by rw [hchar, hr, String.append_assoc]⟩,
        ⟨"", (if urls = [] then ""
          else "\n\n**Pull Requests Created:**\n" ++ numberedPrLines urls),
          by rw [hchar]; simp⟩, fun hne => ?_⟩
      rw [if_neg hne] at hchar
      exact ⟨base, hchar⟩
    · rw [if_neg hsw] at hchar
      refine ⟨⟨"\n\n" ++ (base ++ _),
          by rw [hchar, hmarker, String.append_assoc, String.append_assoc]⟩,
        ⟨"AI Generated Message:\n\n", (if urls = [] then ""
          else "\n\n**Pull Requests Created:**\n" ++ numberedPrLines urls),
          by rw [hchar, String.append_assoc]⟩,
        fun hne => ?_⟩
      rw [if_neg hne] at hchar
      exact ⟨"AI Generated Message:\n\n" ++ base, hchar⟩
  · intro u₁ u₂
    have h1 : toString (1 : Nat) = "1" := by decide
    have h2 : toString (2 : Nat) = "2" := by decide
    have m1 : ("1" ++ ". " : String) = "1. " := by decide
    have m2 : ("2" ++ ". " : String) = "2. " := by decide
    show toString 1 ++ ". " ++ u₁ ++ "\n" ++ (toString 2 ++ ". " ++ u₂ ++ "\n" ++ "") = _
    rw [h1, h2, String.append_empty, m1, m2]

/-- Witness for C6: the spec's two-URL scenario — the formatted message
ends with the two-item numbered list in input order. -/
theorem format_final_message_marker_contains_numbered_witness :
    ∃ p : String,
      format_final_message "Investigated the issue."
          (some ["https://x/pr/1", "https://x/pr/2"]) =
        p ++ ("\n\n**Pull Requests Created:**\n" ++
          numberedPrLines ["https://x/pr/1", "https://x/pr/2"]) :=
  (format_final_message_marker_contains_numbered.1 "Investigated the issue."
    ["https://x/pr/1", "https://x/pr/2"]).2.2 (by simp)

set_option maxRecDepth 4096 in
/-- **C10 (counterexample).** On a concrete successful investigation with
one discovered PR, the fallback final message contains the numbered PR
section twice (once embedded by the fallback body, once appended by the
shared formatter), while the primary path's message contains it once — the
fallback does not present the references identically to the primary
path. -/
theorem fallback_pr_section_duplicated_counterexample :
    prSectionCount (generate_jira_response (.error "schema validation failed")
        sampleClaudeResult (some sampleTicket) (some sampleAnalysis)) = 2 ∧
    prSectionCount (generate_jira_response (.ok samplePrimary)
        sampleClaudeResult (some sampleTicket) (some sampleAnalysis)) = 1 := by
  constructor <;> decide

/-- **C10 (amended).** For every successful investigation with truthy PR
URLs, the shared formatter appends the same numbered PR section to the
fallback message as to the primary message; but the fallback body already
embeds its own copy of the numbered PR block, so the references appear a
second time inside the fallback message. -/
theorem fallback_appends_pr_section_like_primary_with_embedded_copy :
    ∀ (e : String) (p : JiraResponsePydantic) (cr : ClaudeExecutionResult)
      (td : Option TicketData) (ia : Option IssueAnalysis),
      cr.success = true → listTruthy cr.pr_urls = true →
      (∃ resp r q, generate_jira_response (.error e) cr td ia = .ok resp ∧
         resp.message =
           r ++ ("\n\n**Pull Requests Created:**\n" ++
             numberedPrLines (listOrEmpty cr.pr_urls)) ∧
         r = q ++ ("**Pull Requests Created:**\n" ++
             numberedPrLines (listOrEmpty cr.pr_urls) ++ "\n" ++
             "A customer support representative will follow up with additional details if needed.")) ∧
      (∃ resp₂ r₂, generate_jira_response (.ok p) cr td ia = .ok resp₂ ∧
         resp₂.message =
           r₂ ++ ("\n\n**Pull Requests Created:**\n" ++
             numberedPrLines (listOrEmpty cr.pr_urls))) := by
  intro e p cr td ia hs hl
  obtain ⟨P, hP⟩ := generate_fallback_response_embeds_pr_block cr td ia hs hl
  have hok : generate_jira_response (.error e) cr td ia =
      .ok { message :=
              format_final_message (generate_fallback_response cr td ia) cr.pr_urls,
            resolution_type := "investigated", confidence_level := "medium",
            next_steps := ["Follow up with customer if needed"],
            technical_summary :=
              "Analysis completed but response processing failed: " ++ e,
            pr_urls := listOrEmpty cr.pr_urls } := by
    simp only [generate_jira_response, hs, if_true]
  constructor
  · by_cases hsw : pyStartsWith (generate_fallback_response cr td ia)
        "AI Generated Message:" = true
    · refine ⟨_, generate_fallback_response cr td ia, P, hok, ?_, hP⟩
      show format_final_message (generate_fallback_response cr td ia) cr.pr_urls = _
      rw [format_final_message_truthy _ _ hl, if_pos hsw]
    · refine ⟨_, "AI Generated Message:\n\n" ++ generate_fallback_response cr td ia,
        "AI Generated Message:\n\n" ++ P, hok, ?_, ?_⟩
      · show format_final_message (generate_fallback_response cr td ia) cr.pr_urls = _
        rw [format_final_message_truthy _ _ hl, if_neg hsw]
      · rw [hP]
        exact (String.append_assoc _ _ _).symm
  · refine ⟨_, (if pyStartsWith p.response_message "AI Generated Message:"
        then p.response_message
        else "AI Generated Message:\n\n" ++ p.response_message), rfl, ?_⟩
    show format_final_message p.response_message cr.pr_urls = _
    rw [format_final_message_truthy _ _ hl]

/-- Witness for the amended C10 theorem at concrete inputs. -/
theorem fallback_appends_pr_section_like_primary_with_embedded_copy_witness :
    (sampleClaudeResult.success = true ∧
      listTruthy sampleClaudeResult.pr_urls = true) ∧
    (∃ resp r q,
       generate_jira_response (.error "boom") sampleClaudeResult
           (some sampleTicket) (some sampleAnalysis) = .ok resp ∧
       resp.message =
         r ++ ("\n\n**Pull Requests Created:**\n" ++
           numberedPrLines (listOrEmpty sampleClaudeResult.pr_urls)) ∧
       r = q ++ ("**Pull Requests Created:**\n" ++
           numberedPrLines (listOrEmpty sampleClaudeResult.pr_urls) ++ "\n" ++
           "A customer support representative will follow up with additional details if needed.")) :=
  ⟨⟨rfl, rfl⟩,
    (fallback_appends_pr_section_like_primary_with_embedded_copy "boom" samplePrimary
      sampleClaudeResult (some sampleTicket) (some sampleAnalysis) rfl rfl).1⟩

/-! ## JIRA update step (`TicketProcessor.update_ticket_with_claude_response`) -/

/-- The outcome of `update_ticket_with_claude_response`: the comment text
posted, the conditional labels chosen, the resulting label list on the
issue, and the status transition attempted (if any; `_transition_ticket`
is best-effort and never raises). -/
structure UpdateOutcome where
  comment : String
  labels_to_add : List String
  new_labels : List String
  transition_target : Option String
deriving DecidableEq, Repr

/-- Model of `TicketProcessor.update_ticket_with_claude_response`:
`current_labels` are the labels already on the issue at update time. -/
def update_ticket_with_claude_response (resp : JiraResponse)
    (current_labels : List String) : UpdateOutcome :=
  let labels_to_add :=
    "claude-analyzed" ::
      (if resp.resolution_type = "fixed" then ["auto-resolved"]
       else if resp.pr_urls ≠ [] then ["pr-created"]
       else [])
  let new_labels :=
    labels_to_add.foldl
      (fun cur l => if l ∈ cur then cur else cur ++ [l]) current_labels
  let transition_target :=
    if resp.resolution_type = "fixed" ∧ resp.confidence_level = "high" then
      some "Resolved"
    else if resp.resolution_type = "investigated" ∨ resp.resolution_type = "guidance" then
      some "In Progress"
    else none
  { comment := resp.message
    labels_to_add := labels_to_add
    new_labels := new_labels
    transition_target := transition_target }

/-! ## Theorems for claim C5 -/

/-- **C5 (counterexample).** A response with resolution type `fixed` and a
non-empty PR list does NOT get the `pr-created` label: the code adds
`auto-resolved` instead (`elif`), refuting "pr-created whenever the PR
list is non-empty". -/
theorem pr_created_label_skipped_for_fixed_counterexample :
    (({ message := "m", resolution_type := "fixed", confidence_level := "low",
        next_steps := [], technical_summary := "",
        pr_urls := ["https://x/pr/1"] } : JiraResponse).pr_urls ≠ []) ∧
      "pr-created" ∉
        (update_ticket_with_claude_response
          { message := "m", resolution_type := "fixed", confidence_level := "low",
            next_steps := [], technical_summary := "",
            pr_urls := ["https://x/pr/1"] } []).labels_to_add := by
  decide

/-- **C5 (amended).** The update always applies the fixed label
`claude-analyzed`; it additionally applies `pr-created` exactly when the
PR list is non-empty AND the resolution type is not `fixed` (a `fixed`
response gets `auto-resolved` instead); it transitions to `Resolved`
exactly when resolution type is `fixed` and confidence `high`, and to
`In Progress` when resolution type is `investigated` or `guidance`. -/
theorem update_labels_and_transitions :
    ∀ (resp : JiraResponse) (current : List String),
      "claude-analyzed" ∈ (update_ticket_with_claude_response resp current).labels_to_add ∧
      ("pr-created" ∈ (update_ticket_with_claude_response resp current).labels_to_add ↔
        resp.resolution_type ≠ "fixed" ∧ resp.pr_urls ≠ []) ∧
      ((update_ticket_with_claude_response resp current).transition_target =
          some "Resolved" ↔
        resp.resolution_type = "fixed" ∧ resp.confidence_level = "high") ∧
      ((resp.resolution_type = "investigated" ∨ resp.resolution_type = "guidance") →
        (update_ticket_with_claude_response resp current).transition_target =
          some "In Progress") := by
  intro resp current
  unfold update_ticket_with_claude_response
  refine ⟨by simp, ?_, ?_, ?_⟩
  · by_cases hf : resp.resolution_type = "fixed"
    · simp [hf]
    · by_cases hp : resp.pr_urls = []
      · simp [hf, hp]
      · simp [hf, hp]
  · by_cases hf : resp.resolution_type = "fixed" ∧ resp.confidence_level = "high"
    · simp [hf]
    · rw [if_neg hf]
      constructor
      · intro h
        split at h
        · simp at h
        · exact absurd h (by simp)
      · intro h
        exact absurd h hf
  · intro h
    have hf : ¬(resp.resolution_type = "fixed" ∧ resp.confidence_level = "high") := by
      rcases h with h | h <;> simp [h]
    have hig : resp.resolution_type = "investigated" ∨ resp.resolution_type = "guidance" := h
    rw [if_neg hf, if_pos hig]

/-- Witness for the amended C5 theorem: an `investigated` response is
transitioned to `In Progress`. -/
theorem update_labels_and_transitions_witness :
    (update_ticket_with_claude_response
        { message := "m", resolution_type := "investigated",
          confidence_level := "high", next_steps := [], technical_summary := "",
          pr_urls := ["https://x/pr/1"] } []).transition_target =
      some "In Progress" :=
  (update_labels_and_transitions
      { message := "m", resolution_type := "investigated",
        confidence_level := "high", next_steps := [], technical_summary := "",
        pr_urls := ["https://x/pr/1"] } []).2.2.2 (Or.inl rfl)

/-! ## Conversation assembly (`TicketProcessor.fetch_ticket`)

`fetch_ticket` synthesizes the description as a first entry, appends
comment and (filtered) changelog entries, and sorts by timestamp with
Python's stable `list.sort`; the stable sort is modelled by
`List.insertionSort`, which is stable in the same direction (an element
inserted earlier stays before later elements with equal key). -/

structure CommentRecord where
  author : String
  created : Nat
  body : String
deriving DecidableEq, Repr

structure ChangelogRecord where
  author : String
  created : Nat
  field : String
  from_string : Option String
  to_string : Option String
deriving DecidableEq, Repr

/-- Python `str.capitalize()`: first character upper-cased, rest lower. -/
def pyCapitalize (s : String) : String :=
  match s.data with
  | [] => ""
  | c :: cs => ⟨c.toUpper :: cs.map Char.toLower⟩

/-- Python `x or 'None'` for an optional string (`None` and `""` are falsy). -/
def strOrNone : Option String → String
  | none => "None"
  | some s => if s = "" then "None" else s

/-- The sort key of `conversation.sort(key=lambda x: x.timestamp)`. -/
def entryLE (a b : ConversationEntry) : Prop := a.timestamp ≤ b.timestamp

instance : DecidableRel entryLE := fun a b => Nat.decLe a.timestamp b.timestamp

instance : IsTotal ConversationEntry entryLE :=
  ⟨fun a b => Nat.le_total a.timestamp b.timestamp⟩

instance : IsTrans ConversationEntry entryLE :=
  ⟨fun _ _ _ => Nat.le_trans⟩

/-- Model of the conversation-history assembly of
`TicketProcessor.fetch_ticket` (lines 87-125): synthesized description
entry (when the description is truthy), comment entries, changelog entries
for the fields `status`/`assignee`/`priority`, sorted chronologically. -/
def build_conversation (description reporter : String) (created : Nat)
    (comments : List CommentRecord) (changelog : List ChangelogRecord) :
    List ConversationEntry :=
  let initial :=
    if description ≠ "" then
      [{ author := reporter, timestamp := created,
         content := "[Initial Description]\n" ++ description, type := "comment" }]
    else []
  let commentEntries := comments.map fun c =>
    ({ author := c.author, timestamp := c.created, content := c.body,
       type := "comment" } : ConversationEntry)
  let changeEntries :=
    (changelog.filter fun h =>
        h.field = "status" ∨ h.field = "assignee" ∨ h.field = "priority").map fun h =>
      ({ author := h.author, timestamp := h.created,
         content := pyCapitalize h.field ++ " changed from '" ++
           strOrNone h.from_string ++ "' to '" ++ strOrNone h.to_string ++ "'",
         type := if h.field = "status" then "status_change" else "assignment" } :
        ConversationEntry)
  List.insertionSort entryLE (initial ++ commentEntries ++ changeEntries)

/-! ## Theorems for claim C8 -/

/-- Inserting an element no larger than every list element puts it at the
head. -/
theorem head_orderedInsert_of_le {e : ConversationEntry} {l : List ConversationEntry}
    (h : ∀ y ∈ l, entryLE e y) : (List.orderedInsert entryLE e l).head? = some e := by
  cases l with
  | nil => rfl
  | cons b t =>
    rw [List.orderedInsert, if_pos (h b (List.mem_cons_self b t))]
    rfl

/-- **C8 (counterexample).** A ticket whose comment is timestamped before
the ticket's creation time sorts that comment before the synthesized
"[Initial Description]" entry, so the description entry is not first even
though the description is non-empty. -/
theorem conversation_initial_not_first_counterexample :
    ¬("Broken" = "") ∧
    (build_conversation "Broken" "rep" 5
        [{ author := "alice", created := 3, body := "hi" }] []).head? ≠
      some { author := "rep", timestamp := 5,
             content := "[Initial Description]\nBroken", type := "comment" } ∧
    (build_conversation "Broken" "rep" 5
        [{ author := "alice", created := 3, body := "hi" }] []).head? =
      some { author := "alice", timestamp := 3, content := "hi", type := "comment" } := by
  decide

/-- **C8 (amended).** The assembled conversation is always sorted
ascending by timestamp; and whenever the description is non-empty AND the
ticket's creation time is no later than every comment and changelog
timestamp, the synthesized "[Initial Description]" entry attributed to the
reporter at creation time is the first entry (by stability, even on
ties). -/
theorem conversation_sorted_and_initial_first_when_earliest :
    ∀ (description reporter : String) (created : Nat)
      (comments : List CommentRecord) (changelog : List ChangelogRecord),
      List.Sorted entryLE
        (build_conversation description reporter created comments changelog) ∧
      (description ≠ "" → (∀ c ∈ comments, created ≤ c.created) →
        (∀ g ∈ changelog, created ≤ g.created) →
        (build_conversation description reporter created comments changelog).head? =
          some { author := reporter, timestamp := created,
                 content := "[Initial Description]\n" ++ description,
                 type := "comment" }) := by
  intro description reporter created comments changelog
  constructor
  · exact List.sorted_insertionSort entryLE _
  · intro hd hc hg
    unfold build_conversation
    rw [if_pos hd]
    show (List.orderedInsert entryLE _ (List.insertionSort entryLE _)).head? = _
    apply head_orderedInsert_of_le
    intro y hy
    rw [List.Perm.mem_iff (List.perm_insertionSort _ _)] at hy
    rcases List.mem_append.mp hy with h | h
    · obtain ⟨c, hcmem, rfl⟩ := List.mem_map.mp h
      exact hc c hcmem
    · obtain ⟨g, hgmem, rfl⟩ := List.mem_map.mp h
      exact hg g (List.mem_filter.mp hgmem).1

/-- Witness for the amended C8 theorem: with creation before every other
timestamp, the description entry is first. -/
theorem conversation_sorted_and_initial_first_when_earliest_witness :
    (build_conversation "Broken" "rep" 1
        [{ author := "alice", created := 3, body := "hi" }]
        [{ author := "bob", created := 4, field := "status",
           from_string := some "Open", to_string := some "Closed" }]).head? =
      some { author := "rep", timestamp := 1,
             content := "[Initial Description]\nBroken", type := "comment" } :=
  (conversation_sorted_and_initial_first_when_earliest "Broken" "rep" 1
      [{ author := "alice", created := 3, body := "hi" }]
      [{ author := "bob", created := 4, field := "status",
         from_string := some "Open", to_string := some "Closed" }]).2
    (by decide) (by decide) (by decide)

/-! ## Audit store (`src/database/ticket_tracker.py`)

A row of the `processed_tickets` table.  `AUTOINCREMENT` ids are `1..n` in
insertion order (no row is ever deleted, so `max id + 1 = length + 1`);
`processed_at` timestamps are abstract `Nat` instants; the JSON
serialization of list columns is modelled by the lists themselves
(`json.dumps`/`json.loads` round-trip), with the code's falsy-to-NULL
conversion kept. -/

structure ProcessedRow where
  id : Nat
  ticket_id : String
  user : String
  processed_at : Nat
  success : Bool
  execution_time_seconds : Option Nat
  pr_urls : Option (List String)
  error_message : Option String
  deepseek_analysis : Option String
  claude_analysis_path : Option String
  jira_comment_added : Bool
  labels_added : Option (List String)
deriving DecidableEq, Repr

/-- The arguments of `log_ticket_processing` (Python keyword arguments
with their defaults supplied by the caller model). -/
structure LogArgs where
  ticket_id : String
  user : String
  success : Bool
  execution_time : Option Nat
  pr_urls : Option (List String)
  error_message : Option String
  deepseek_analysis : Option String
  claude_analysis_path : Option String
  jira_comment_added : Bool
  labels_added : Option (List String)
deriving DecidableEq, Repr

/-- Model of `TicketTracker.log_ticket_processing`: a single `INSERT`.
The `UNIQUE(ticket_id, processed_at)` constraint makes a duplicate insert
raise `IntegrityError`, leaving the table unchanged; otherwise the new row
is appended and its id returned (`cursor.lastrowid`). -/
def log_ticket_processing (db : List ProcessedRow) (a : LogArgs) (now : Nat) :
    Except String (List ProcessedRow × Nat) :=
  if db.any fun r => r.ticket_id == a.ticket_id && r.processed_at == now then
    .error "UNIQUE constraint failed: processed_tickets.ticket_id, processed_tickets.processed_at"
  else
    let id := db.length + 1
    let row : ProcessedRow :=
      { id := id, ticket_id := a.ticket_id, user := a.user, processed_at := now,
        success := a.success, execution_time_seconds := a.execution_time,
        pr_urls := if listTruthy a.pr_urls then some (listOrEmpty a.pr_urls) else none,
        error_message := a.error_message, deepseek_analysis := a.deepseek_analysis,
        claude_analysis_path := a.claude_analysis_path,
        jira_comment_added := a.jira_comment_added,
        labels_added :=
          if listTruthy a.labels_added then some (listOrEmpty a.labels_added) else none }
    .ok (db ++ [row], id)

/-- The comparison of `ORDER BY processed_at DESC`. -/
def rowGE (a b : ProcessedRow) : Prop := b.processed_at ≤ a.processed_at

instance : DecidableRel rowGE := fun a b => Nat.decLe b.processed_at a.processed_at

instance : IsTotal ProcessedRow rowGE :=
  ⟨fun a b => (Nat.le_total b.processed_at a.processed_at).imp id id⟩

instance : IsTrans ProcessedRow rowGE :=
  ⟨fun _ _ _ h₁ h₂ => Nat.le_trans h₂ h₁⟩

/-- Model of `TicketTracker.get_ticket_history`: `SELECT * ... WHERE
ticket_id = ? ORDER BY processed_at DESC` (SQLite guarantees no particular
order among equal keys; the model picks one valid order). -/
def get_ticket_history (db : List ProcessedRow) (ticketId : String) :
    List ProcessedRow :=
  List.insertionSort rowGE (db.filter fun r => r.ticket_id == ticketId)

/-- The public operations of `TicketTracker`; only `log` writes. -/
inductive TrackerOp where
  | log (a : LogArgs) (now : Nat)
  | history (ticketId : String)
  | userStats (user : String)
  | recentTickets (limit : Nat) (user : Option String)

/-- Effect of one tracker operation on the stored table (queries leave it
unchanged; a failed insert leaves it unchanged). -/
def applyOp (db : List ProcessedRow) : TrackerOp → List ProcessedRow
  | .log a now =>
    match log_ticket_processing db a now with
    | .ok (db', _) => db'
    | .error _ => db
  | .history _ => db
  | .userStats _ => db
  | .recentTickets _ _ => db

/-- Effect of a sequence of tracker operations. -/
def applyOps (db : List ProcessedRow) (ops : List TrackerOp) : List ProcessedRow :=
  ops.foldl applyOp db

/-! ## Theorems for claim C9 -/

/-- Every tracker operation extends the stored table on the right: prior
rows persist unchanged, in place. -/
theorem applyOp_append (db : List ProcessedRow) (op : TrackerOp) :
    ∃ appended, applyOp db op = db ++ appended := by
  cases op with
  | log a now =>
    by_cases h : (db.any fun r => r.ticket_id == a.ticket_id && r.processed_at == now) = true
    · refine ⟨[], ?_⟩
      simp only [applyOp, log_ticket_processing]
      rw [if_pos h]
      exact (List.append_nil db).symm
    · let row : ProcessedRow :=
        { id := db.length + 1, ticket_id := a.ticket_id, user := a.user,
          processed_at := now, success := a.success,
          execution_time_seconds := a.execution_time,
          pr_urls := if listTruthy a.pr_urls then some (listOrEmpty a.pr_urls) else none,
          error_message := a.error_message, deepseek_analysis := a.deepseek_analysis,
          claude_analysis_path := a.claude_analysis_path,
          jira_comment_added := a.jira_comment_added,
          labels_added :=
            if listTruthy a.labels_added then some (listOrEmpty a.labels_added)
            else none }
      refine ⟨[row], ?_⟩
      simp only [applyOp, log_ticket_processing]
      rw [if_neg h]
  | history t => exact ⟨[], (List.append_nil db).symm⟩
  | userStats u => exact ⟨[], (List.append_nil db).symm⟩
  | recentTickets l u => exact ⟨[], (List.append_nil db).symm⟩

/-- A sequence of operations only ever appends rows. -/
theorem applyOps_append (ops : List TrackerOp) :
    ∀ db : List ProcessedRow, ∃ rest, applyOps db ops = db ++ rest := by
  induction ops with
  | nil => exact fun db => ⟨[], (List.append_nil db).symm⟩
  | cons op ops ih =>
    intro db
    obtain ⟨a, ha⟩ := applyOp_append db op
    obtain ⟨r, hr⟩ := ih (applyOp db op)
    exact ⟨a ++ r, by
      show applyOps (applyOp db op) ops = _
      rw [hr, ha, List.append_assoc]⟩

/-- **C9.** The audit store is append-only (every operation extends the
table on the right, so no persisted row is ever updated or deleted), the
history count for a ticket id is monotonically non-decreasing across any
operation sequence, and `get_ticket_history` returns exactly the rows of
that ticket id, ordered most recent first (descending by
`processed_at`). -/
theorem tracker_append_only_history_sorted_desc :
    (∀ (db : List ProcessedRow) (op : TrackerOp),
       ∃ appended, applyOp db op = db ++ appended) ∧
    (∀ (db : List ProcessedRow) (ops : List TrackerOp) (ticketId : String),
       (get_ticket_history db ticketId).length ≤
         (get_ticket_history (applyOps db ops) ticketId).length) ∧
    (∀ (db : List ProcessedRow) (ticketId : String),
       List.Perm (get_ticket_history db ticketId)
         (db.filter fun r => r.ticket_id == ticketId) ∧
       List.Sorted rowGE (get_ticket_history db ticketId)) := by
  refine ⟨applyOp_append, ?_, ?_⟩
  · intro db ops ticketId
    obtain ⟨rest, hr⟩ := applyOps_append ops db
    rw [hr]
    unfold get_ticket_history
    rw [(List.perm_insertionSort rowGE _).length_eq,
      (List.perm_insertionSort rowGE _).length_eq, List.filter_append,
      List.length_append]
    exact Nat.le_add_right _ _
  · intro db ticketId
    exact ⟨List.perm_insertionSort rowGE _, List.sorted_insertionSort rowGE _⟩
